import Mathlib

/-!
Verification of the Lost-Found item tracker (`src/LP/app.py`) against its
natural-language specification.  The Flask handlers are shallowly embedded:
each store is a Lean list of records, each mutating handler is a pure
function from the store (and the submitted form data) to the new store, and
the session is an explicit record.  Werkzeug's `secure_filename` is external
library code, so the operations are parameterized over an arbitrary
sanitizer function `sanitize : String → String`; no claim depends on its
behaviour.  Python's `str.lower` is modelled by `pyLower` (character-wise
`Char.toLower`), and Python's substring operator `in` by `listContains`.
-/

/-- An item record (`items.json`).  Fields written at creation
(`add_item`, app.py lines 164-173) are plain strings; fields that a raw
JSON record may lack and that the code reads with `.get` (`category`) or
that only the claim workflow writes are `Option String`. -/
structure Item where
  id : Nat
  name : String
  description : String
  category : Option String
  date_found : String
  status : String
  assisting_staff : String
  image : String
  claimer_name : Option String := none
  college : Option String := none
  course : Option String := none
  year_section : Option String := none
  claimed_at : Option String := none
  proof_image : Option String := none
  proof_uploaded_at : Option String := none
deriving DecidableEq, Repr

/-- A user record (`users.json`): `id`, the string form of the stored
`student_id` (the code compares `str(user.get("student_id"))`), and an
optional `role` (app.py lines 257-260). -/
structure User where
  id : Nat
  student_id : String
  role : Option String
deriving DecidableEq, Repr

/-- The session mapping as the app uses it: the keys `user_id` and
`user_role`, each possibly absent. -/
structure SessionState where
  user_id : Option Nat
  user_role : Option String
deriving DecidableEq, Repr

/-- A session with neither key set (no login has happened). -/
def emptySession : SessionState := { user_id := none, user_role := none }

/-- Python `str.lower()` (character-wise lowercasing). -/
def pyLower (s : String) : String := String.mk (s.data.map Char.toLower)

/-- `listPrefixOf xs ys` is true when `xs` is a prefix of `ys`
(helper for the Python substring operator `in`). -/
def listPrefixOf : List Char → List Char → Bool
  | [], _ => true
  | _ :: _, [] => false
  | a :: xs, b :: ys => a == b && listPrefixOf xs ys

/-- `listContains sub s` is true when `sub` occurs contiguously inside `s`:
the Python expression `sub in s` on strings. -/
def listContains (sub : List Char) : List Char → Bool
  | [] => listPrefixOf sub []
  | s@(_ :: rest) => listPrefixOf sub s || listContains sub rest

/-- The upload allow-list `ALLOWED_EXTENSIONS` (app.py line 14). -/
def ALLOWED_EXTENSIONS : List String := ["png", "jpg", "jpeg", "gif"]

/-- The characters after the last dot: Python `filename.rsplit('.', 1)[1]`
when a dot is present. -/
def afterLastDot (s : List Char) : List Char :=
  (s.reverse.takeWhile (fun c => c ≠ '.')).reverse

/-- `allowed_file` (app.py lines 94-95): the name has a dot and the
lowercased part after the last dot is in the allow-list. -/
def allowed_file (filename : String) : Bool :=
  filename.data.contains '.' &&
    ALLOWED_EXTENSIONS.contains (pyLower (String.mk (afterLastDot filename.data)))

/-- `add_item`, POST branch with a logged-in session (app.py lines 156-176):
store the upload's sanitized name if its extension is allowed (else keep
`""`), then append a record with id `len(items) + 1`, status `"Unclaimed"`,
and the submitted fields.  `now` is `datetime.now().isoformat()`;
`upload` is the submitted file's name, `none` when no file was sent. -/
def add_item (sanitize : String → String) (items : List Item)
    (nameF descriptionF categoryF now : String) (upload : Option String) :
    List Item :=
  let filename : String :=
    match upload with
    | some f => if allowed_file f then sanitize f else ""
    | none => ""
  items ++ [{ id := items.length + 1, name := nameF,
              description := descriptionF, category := some categoryF,
              date_found := now, status := "Unclaimed",
              assisting_staff := "", image := filename }]

/-- Replace the first element satisfying `p` by its image under `f`
(the Python pattern `next(i for i in items if ...)` followed by in-place
mutation of the found dict). -/
def updateFirst (p : Item → Bool) (f : Item → Item) : List Item → List Item
  | [] => []
  | i :: rest => if p i then f i :: rest else i :: updateFirst p f rest

/-- The in-place mutation `update_item` performs on the found item
(app.py lines 191-199): overwrite name, description, category, and the
image only when a new upload passes `allowed_file`. -/
def applyUpdate (sanitize : String → String)
    (nameF descriptionF categoryF : String) (upload : Option String)
    (i : Item) : Item :=
  let i := { i with name := nameF, description := descriptionF,
                    category := some categoryF }
  match upload with
  | some f => if allowed_file f then { i with image := sanitize f } else i
  | none => i

/-- `update_item`, POST branch with a logged-in session (app.py lines
180-203): `none` models the `404 "Item not found"` response when no record
has the identifier; otherwise the first matching record is mutated in
place and the collection saved. -/
def update_item (sanitize : String → String) (items : List Item)
    (item_id : Nat) (nameF descriptionF categoryF : String)
    (upload : Option String) : Option (List Item) :=
  if items.any (fun i => i.id == item_id) then
    some (updateFirst (fun i => i.id == item_id)
           (applyUpdate sanitize nameF descriptionF categoryF upload) items)
  else none

/-- The claim form fields read from the POST request
(app.py lines 221-225). -/
structure ClaimForm where
  staff : String
  claimer_name : String
  college : String
  course : String
  year_section : String
deriving DecidableEq, Repr

/-- The in-place mutation `claim_item` performs on the found item (app.py
lines 220-233): set status `"Claimed"`, copy the claimant fields from the
form, stamp `claimed_at`, and, when a proof upload passes `allowed_file`,
store it under `stamp ++ "_" ++ sanitize name` and stamp
`proof_uploaded_at`. -/
def applyClaim (sanitize : String → String) (form : ClaimForm)
    (claimedAt : String) (proofFile : Option String) (stamp nowIso : String)
    (i : Item) : Item :=
  let i := { i with status := "Claimed", assisting_staff := form.staff,
                    claimer_name := some form.claimer_name,
                    college := some form.college, course := some form.course,
                    year_section := some form.year_section,
                    claimed_at := some claimedAt }
  match proofFile with
  | some f =>
      if allowed_file f then
        { i with proof_image := some (stamp ++ "_" ++ sanitize f),
                 proof_uploaded_at := some nowIso }
      else i
  | none => i

/-- `claim_item`, POST branch with a logged-in session (app.py lines
208-236): `none` models the 404 when no record has the identifier;
otherwise the first matching record is mutated by `applyClaim`. -/
def claim_item (sanitize : String → String) (items : List Item)
    (item_id : Nat) (form : ClaimForm) (claimedAt : String)
    (proofFile : Option String) (stamp nowIso : String) :
    Option (List Item) :=
  if items.any (fun i => i.id == item_id) then
    some (updateFirst (fun i => i.id == item_id)
           (applyClaim sanitize form claimedAt proofFile stamp nowIso) items)
  else none

/-- `delete_item` with a logged-in session (app.py lines 240-248): keep
every record whose id differs from the given identifier. -/
def delete_item (items : List Item) (item_id : Nat) : List Item :=
  items.filter (fun i => i.id != item_id)

/-- `login`, POST branch (app.py lines 251-265): scan the user list for the
first record whose stored student-id (as a string) equals the submitted
identifier; on a match set `user_id` and `user_role` (role defaulting to
`"Staff"`) in the session and report success; otherwise leave the session
unchanged and report failure (the login view is re-rendered with a flash).
-/
def login (users : List User) (student_id : String) (s : SessionState) :
    SessionState × Bool :=
  match users.find? (fun u => u.student_id == student_id) with
  | some u =>
      ({ user_id := some u.id, user_role := some (u.role.getD "Staff") }, true)
  | none => (s, false)

/-- The filtering stage of `home` (app.py lines 116-127): lowercase the
raw query; if the lowered query is non-empty keep the items whose lowered
name or lowered category (missing category read as `""`) contains it as a
substring; then, if the raw category filter is non-empty, keep the items
whose lowered category equals the lowered filter. -/
def homeFilter (q selected_category : String) (items : List Item) :
    List Item :=
  let query := pyLower q
  let items1 :=
    if query ≠ "" then
      items.filter (fun i =>
        listContains query.data (pyLower i.name).data ||
        listContains query.data (pyLower (i.category.getD "")).data)
    else items
  if selected_category ≠ "" then
    let sel_cat := pyLower selected_category
    items1.filter (fun i => pyLower (i.category.getD "") == sel_cat)
  else items1

/-- `"s"` when the count calls for a plural, else `""` (the inline
`'s' if n > 1 else ''` of app.py lines 139-143). -/
def pluralSuffix (n : Nat) : String := if n > 1 then "s" else ""

/-- The `time_stored` label of `home` (app.py lines 129-145) for an item
whose `date_found` is `delta` whole seconds before `now` (Python's
`timedelta` splits a nonnegative delta into `days = delta // 86400` and
`seconds = delta % 86400`; `hours` and `minutes` are carved from
`seconds`). -/
def timeStored (delta : Nat) : String :=
  let days := delta / 86400
  let hours := delta % 86400 / 3600
  let minutes := delta % 86400 % 3600 / 60
  if days > 0 then toString days ++ " day" ++ pluralSuffix days ++ " ago"
  else if hours > 0 then toString hours ++ " hour" ++ pluralSuffix hours ++ " ago"
  else if minutes > 0 then
    toString minutes ++ " minute" ++ pluralSuffix minutes ++ " ago"
  else "Just now"

/-- The label as the spec words it, to compare with `timeStored`: days if
the delta is at least one day, else hours if at least one hour, else
minutes if at least one minute, else `"Just now"`. -/
def timeStoredSpec (delta : Nat) : String :=
  if 86400 ≤ delta then
    toString (delta / 86400) ++ " day" ++ pluralSuffix (delta / 86400) ++ " ago"
  else if 3600 ≤ delta then
    toString (delta / 3600) ++ " hour" ++ pluralSuffix (delta / 3600) ++ " ago"
  else if 60 ≤ delta then
    toString (delta / 60) ++ " minute" ++ pluralSuffix (delta / 60) ++ " ago"
  else "Just now"

/-- The item statistics of `admin_panel` (app.py lines 290-297):
total, claimed, and unclaimed item counts. -/
def adminStats (items : List Item) : Nat × Nat × Nat :=
  (items.length,
   (items.filter (fun i => i.status == "Claimed")).length,
   (items.filter (fun i => i.status == "Unclaimed")).length)

/-- The outcome of a request as far as the auth gate is concerned. -/
inductive Response where
  | redirectLogin : Response
  | redirectHome : Response
  | render : String → Response
  | notFound : Response
deriving DecidableEq, Repr

/-- The gate of `home` (app.py lines 111-114): no `user_id` in the session
redirects to login, otherwise the index view is rendered. -/
def home_route (s : SessionState) : Response :=
  if s.user_id.isNone then Response.redirectLogin
  else Response.render "index.html"

/-- The gate of `add_item` (app.py lines 151-154). -/
def add_item_route (s : SessionState) : Response :=
  if s.user_id.isNone then Response.redirectLogin
  else Response.render "add_item.html"

/-- The gate of `update_item` (app.py lines 180-188): login check first,
then 404 when no record has the identifier. -/
def update_item_route (s : SessionState) (items : List Item)
    (item_id : Nat) : Response :=
  if s.user_id.isNone then Response.redirectLogin
  else if items.any (fun i => i.id == item_id) then
    Response.render "update_item.html"
  else Response.notFound

/-- The gate of `claim_item` (app.py lines 208-217). -/
def claim_item_route (s : SessionState) (items : List Item)
    (item_id : Nat) : Response :=
  if s.user_id.isNone then Response.redirectLogin
  else if items.any (fun i => i.id == item_id) then
    Response.render "claim_item.html"
  else Response.notFound

/-- The gate of `delete_item` (app.py lines 240-248): after the login
check the route always redirects home. -/
def delete_item_route (s : SessionState) : Response :=
  if s.user_id.isNone then Response.redirectLogin
  else Response.redirectHome

/-- The gate of `staff` (app.py lines 58-71). -/
def staff_route (s : SessionState) : Response :=
  if s.user_id.isNone then Response.redirectLogin
  else Response.render "staff.html"

/-- The gate of `add_staff` (app.py lines 73-88). -/
def add_staff_route (s : SessionState) : Response :=
  if s.user_id.isNone then Response.redirectLogin
  else Response.render "add_staff.html"

/-- `is_admin` (app.py lines 16-18): the session role equals `"Admin"`. -/
def is_admin (s : SessionState) : Bool := s.user_role == some "Admin"

/-- The gate of `admin_panel` (app.py lines 278-282): the
`admin_required` decorator runs first and redirects HOME when the session
role is not `"Admin"`; only then does the body's `user_id` check run. -/
def admin_panel_route (s : SessionState) : Response :=
  if !is_admin s then Response.redirectHome
  else if s.user_id.isNone then Response.redirectLogin
  else Response.render "admin_panel.html"

/-- `view_items` (app.py lines 305-309): the function body performs no
session check at all; it reads `items.json` and renders the listing. -/
def view_items_route (_ : SessionState) : Response :=
  Response.render "items.html"

/-- One item-store-mutating request, with all its form data. -/
inductive Op where
  | add (nameF descriptionF categoryF now : String) (upload : Option String)
  | update (item_id : Nat) (nameF descriptionF categoryF : String)
      (upload : Option String)
  | claim (item_id : Nat) (form : ClaimForm) (claimedAt : String)
      (proofFile : Option String) (stamp nowIso : String)
  | delete (item_id : Nat)

/-- Apply one request to the item store.  `update` and `claim` leave the
store unchanged when they 404 (the collection is not saved). -/
def applyOp (sanitize : String → String) (items : List Item) :
    Op → List Item
  | Op.add n d c now up => add_item sanitize items n d c now up
  | Op.update i n d c up => (update_item sanitize items i n d c up).getD items
  | Op.claim i f ca pf st ni =>
      (claim_item sanitize items i f ca pf st ni).getD items
  | Op.delete i => delete_item items i

/-- Run a sequence of requests against a store. -/
def runOps (sanitize : String → String) (items : List Item) :
    List Op → List Item
  | [] => items
  | op :: ops => runOps sanitize (applyOp sanitize items op) ops

/-- Per-record status evolution in one request: the status is untouched or
set to `"Claimed"`.  No handler ever writes `"Unclaimed"` into an existing
record. -/
def statusEvolves (i j : Item) : Prop :=
  j.status = i.status ∨ j.status = "Claimed"

/-- What one item-store request can do, record by record: append one fresh
`"Unclaimed"` record (add), rewrite records in place with each status kept
or set to `"Claimed"` (update/claim, including their no-op 404 cases), or
drop records leaving the survivors untouched (delete).  In particular no
step turns an existing record's `"Claimed"` into `"Unclaimed"`. -/
def stepRel (xs ys : List Item) : Prop :=
  (∃ new, new.status = "Unclaimed" ∧ ys = xs ++ [new]) ∨
  List.Forall₂ statusEvolves xs ys ∨
  ys.Sublist xs

/-- A sample unclaimed item (used to instantiate theorems). -/
def itemA : Item :=
  { id := 1, name := "Phone", description := "black", category := some "Electronics",
    date_found := "2024-01-01T00:00:00", status := "Unclaimed",
    assisting_staff := "", image := "" }

/-- A second sample unclaimed item, without a category. -/
def itemB : Item :=
  { id := 2, name := "Bag", description := "red", category := none,
    date_found := "2024-01-01T00:00:00", status := "Unclaimed",
    assisting_staff := "", image := "" }

/-- A sample claimed item. -/
def claimedItem : Item := { itemA with status := "Claimed" }

/-- A sample user record. -/
def userA : User := { id := 7, student_id := "abc123", role := none }

/-- A sample claim form. -/
def formA : ClaimForm :=
  { staff := "Ana", claimer_name := "Bob", college := "CCS",
    course := "CS", year_section := "3A" }

/-! ## Helper lemmas -/

/-- `listPrefixOf` decides list-prefix. -/
theorem listPrefixOf_iff (xs ys : List Char) :
    listPrefixOf xs ys = true ↔ ∃ t, ys = xs ++ t := by
  induction xs generalizing ys with
  | nil => simp [listPrefixOf]
  | cons a as ih =>
    cases ys with
    | nil => simp [listPrefixOf]
    | cons b bs =>
      simp only [listPrefixOf, Bool.and_eq_true, beq_iff_eq, ih,
        List.cons_append, List.cons.injEq]
      constructor
      · rintro ⟨rfl, t, rfl⟩
        exact ⟨t, rfl, rfl⟩
      · rintro ⟨t, rfl, rfl⟩
        exact ⟨rfl, t, rfl⟩

/-- `listContains` decides contiguous-sublist (the Python `in` on
strings): `sub` occurs in `s` iff `s` splits as `l ++ sub ++ r`. -/
theorem listContains_iff (sub s : List Char) :
    listContains sub s = true ↔ ∃ l r, s = l ++ sub ++ r := by
  induction s with
  | nil =>
    simp only [listContains, listPrefixOf_iff]
    constructor
    · rintro ⟨t, ht⟩
      exact ⟨[], t, by simpa using ht⟩
    · rintro ⟨l, r, h⟩
      rcases List.append_eq_nil.mp ((List.append_assoc l sub r ▸ h).symm)
        with ⟨rfl, h2⟩
      exact ⟨r, by simpa using h2.symm⟩
  | cons b bs ih =>
    simp only [listContains, Bool.or_eq_true, listPrefixOf_iff, ih]
    constructor
    · rintro (⟨t, ht⟩ | ⟨l, r, hl⟩)
      · exact ⟨[], t, by simpa using ht⟩
      · exact ⟨b :: l, r, by simp [hl]⟩
    · rintro ⟨l, r, h⟩
      cases l with
      | nil => exact Or.inl ⟨r, by simpa using h⟩
      | cons x l =>
        have h' : b = x ∧ bs = l ++ (sub ++ r) := by simpa using h
        exact Or.inr ⟨l, r, by simp [h'.2]⟩

/-- `find?` after `updateFirst`: when `f` preserves satisfaction of `p`,
the first `p`-satisfying record of the updated list is the image under `f`
of the original first match. -/
theorem find_updateFirst (p : Item → Bool) (f : Item → Item)
    (hf : ∀ i, p i = true → p (f i) = true) (l : List Item) :
    (updateFirst p f l).find? p = (l.find? p).map f := by
  induction l with
  | nil => simp [updateFirst]
  | cons i rest ih =>
    by_cases h : p i = true
    · simp [updateFirst, h, List.find?_cons_of_pos _ h,
        List.find?_cons_of_pos _ (hf i h)]
    · rw [updateFirst]
      simp only [h, Bool.false_eq_true, if_false]
      rw [List.find?_cons_of_neg _ (by simp [h]),
        List.find?_cons_of_neg _ (by simp [h]), ih]

/-- Membership after `updateFirst`: every record of the updated list is an
original record or the image under `f` of an original record. -/
theorem mem_updateFirst {p : Item → Bool} {f : Item → Item} {i : Item}
    {l : List Item} (h : i ∈ updateFirst p f l) :
    i ∈ l ∨ ∃ j ∈ l, i = f j := by
  induction l with
  | nil => simp [updateFirst] at h
  | cons a rest ih =>
    rw [updateFirst] at h
    by_cases hp : p a = true
    · simp only [hp, if_true, List.mem_cons] at h
      rcases h with rfl | h
      · exact Or.inr ⟨a, by simp, rfl⟩
      · exact Or.inl (by simp [h])
    · simp only [hp, Bool.false_eq_true, if_false, List.mem_cons] at h
      rcases h with rfl | h
      · exact Or.inl (by simp)
      · rcases ih h with h' | ⟨j, hj, rfl⟩
        · exact Or.inl (by simp [h'])
        · exact Or.inr ⟨j, by simp [hj], rfl⟩

/-- `updateFirst` changes records only pointwise: the result is related to
the input by `Forall₂ R` whenever `R` is reflexive and holds across `f`. -/
theorem forall2_updateFirst (R : Item → Item → Prop) (p : Item → Bool)
    (f : Item → Item) (hrefl : ∀ i, R i i) (hf : ∀ i, R i (f i)) :
    ∀ l : List Item, List.Forall₂ R l (updateFirst p f l) := by
  intro l
  induction l with
  | nil => exact List.Forall₂.nil
  | cons a rest ih =>
    rw [updateFirst]
    by_cases hp : p a = true
    · simp only [hp, if_true]
      exact List.Forall₂.cons (hf a) (List.forall₂_same.mpr fun x _ => hrefl x)
    · simp only [hp, Bool.false_eq_true, if_false]
      exact List.Forall₂.cons (hrefl a) ih

/-- `applyUpdate` never touches the `id` field. -/
theorem applyUpdate_id (sanitize : String → String)
    (n d c : String) (up : Option String) (i : Item) :
    (applyUpdate sanitize n d c up i).id = i.id := by
  cases up with
  | none => rfl
  | some f =>
    rw [applyUpdate]
    by_cases h : allowed_file f = true <;> simp [h]

/-- `applyUpdate` never touches the `status` field. -/
theorem applyUpdate_status (sanitize : String → String)
    (n d c : String) (up : Option String) (i : Item) :
    (applyUpdate sanitize n d c up i).status = i.status := by
  cases up with
  | none => rfl
  | some f =>
    rw [applyUpdate]
    by_cases h : allowed_file f = true <;> simp [h]

/-- When the upload fails `allowed_file`, `applyUpdate` never touches the
`image` field. -/
theorem applyUpdate_image_of_not_allowed (sanitize : String → String)
    (n d c f : String) (hf : allowed_file f = false) (i : Item) :
    (applyUpdate sanitize n d c (some f) i).image = i.image := by
  rw [applyUpdate]
  simp [hf]

/-- `applyClaim` never touches the `id` field. -/
theorem applyClaim_id (sanitize : String → String) (form : ClaimForm)
    (claimedAt : String) (proofFile : Option String) (stamp nowIso : String)
    (i : Item) :
    (applyClaim sanitize form claimedAt proofFile stamp nowIso i).id = i.id := by
  cases proofFile with
  | none => rfl
  | some f =>
    rw [applyClaim]
    by_cases h : allowed_file f = true <;> simp [h]

/-- `applyClaim` always sets the status to `"Claimed"`. -/
theorem applyClaim_status (sanitize : String → String) (form : ClaimForm)
    (claimedAt : String) (proofFile : Option String) (stamp nowIso : String)
    (i : Item) :
    (applyClaim sanitize form claimedAt proofFile stamp nowIso i).status =
      "Claimed" := by
  cases proofFile with
  | none => rfl
  | some f =>
    rw [applyClaim]
    by_cases h : allowed_file f = true <;> simp [h]

/-- `applyClaim` copies every claimant field from the form and stamps
`claimed_at`. -/
theorem applyClaim_fields (sanitize : String → String) (form : ClaimForm)
    (claimedAt : String) (proofFile : Option String) (stamp nowIso : String)
    (i : Item) :
    (applyClaim sanitize form claimedAt proofFile stamp nowIso i).assisting_staff
        = form.staff ∧
    (applyClaim sanitize form claimedAt proofFile stamp nowIso i).claimer_name
        = some form.claimer_name ∧
    (applyClaim sanitize form claimedAt proofFile stamp nowIso i).college
        = some form.college ∧
    (applyClaim sanitize form claimedAt proofFile stamp nowIso i).course
        = some form.course ∧
    (applyClaim sanitize form claimedAt proofFile stamp nowIso i).year_section
        = some form.year_section ∧
    (applyClaim sanitize form claimedAt proofFile stamp nowIso i).claimed_at
        = some claimedAt := by
  cases proofFile with
  | none => exact ⟨rfl, rfl, rfl, rfl, rfl, rfl⟩
  | some f =>
    rw [applyClaim]
    by_cases h : allowed_file f = true <;> simp [h]

/-! ## Claims -/

/-- C1 counterexample: with an empty session (no user identifier),
`view_items` (GET /admin/items) renders the raw item listing instead of
redirecting to login, and `admin_panel` (GET /admin) redirects to home,
not to login.  This refutes the claim that every content route redirects
to the login route when the session has no user identifier. -/
theorem C1_counterexample :
    emptySession.user_id = none ∧
    view_items_route emptySession = Response.render "items.html" ∧
    view_items_route emptySession ≠ Response.redirectLogin ∧
    admin_panel_route emptySession = Response.redirectHome ∧
    admin_panel_route emptySession ≠ Response.redirectLogin := by
  refine ⟨rfl, rfl, ?_, rfl, ?_⟩ <;> decide

/-- C1 (amended): when the session has no user identifier, the content
routes home, add, update, claim, delete, staff, and staff/add all redirect
to the login route; the admin route redirects to home whenever the session
role is not `"Admin"` (reaching the login redirect only in the contrary
case), and the raw item listing route /admin/items performs no session
check and renders its view regardless. -/
theorem C1_auth_gate_amended (s : SessionState) (items : List Item)
    (item_id : Nat) (hs : s.user_id = none) :
    home_route s = Response.redirectLogin ∧
    add_item_route s = Response.redirectLogin ∧
    update_item_route s items item_id = Response.redirectLogin ∧
    claim_item_route s items item_id = Response.redirectLogin ∧
    delete_item_route s = Response.redirectLogin ∧
    staff_route s = Response.redirectLogin ∧
    add_staff_route s = Response.redirectLogin ∧
    (s.user_role ≠ some "Admin" → admin_panel_route s = Response.redirectHome) ∧
    (s.user_role = some "Admin" → admin_panel_route s = Response.redirectLogin) ∧
    view_items_route s = Response.render "items.html" := by
  refine ⟨?_, ?_, ?_, ?_, ?_, ?_, ?_, ?_, ?_, rfl⟩
  · simp [home_route, hs]
  · simp [add_item_route, hs]
  · simp [update_item_route, hs]
  · simp [claim_item_route, hs]
  · simp [delete_item_route, hs]
  · simp [staff_route, hs]
  · simp [add_staff_route, hs]
  · intro hr
    simp [admin_panel_route, is_admin, hr]
  · intro hr
    simp [admin_panel_route, is_admin, hr, hs]

/-- C1 witness: the amended gate facts hold at the empty session. -/
theorem C1_witness :
    emptySession.user_id = none ∧
    home_route emptySession = Response.redirectLogin ∧
    view_items_route emptySession = Response.render "items.html" :=
  ⟨rfl, (C1_auth_gate_amended emptySession [] 1 rfl).1,
    (C1_auth_gate_amended emptySession [] 1 rfl).2.2.2.2.2.2.2.2.2⟩

/-- C2 counterexample: `"ABC123"` and `"abc123"` differ only in letter
case (their lowercasings agree), yet logging in with `"ABC123"` against a
store whose only user has student-id `"abc123"` matches nothing: the
session is left unchanged and the login fails, refuting the claimed
case-normalized comparison. -/
theorem C2_counterexample :
    pyLower "ABC123" = pyLower "abc123" ∧
    "ABC123" ≠ "abc123" ∧
    login [userA] "ABC123" emptySession = (emptySession, false) := by
  refine ⟨by decide, by decide, by decide⟩

/-- C2 (amended): login scans the user store for the first record whose
stored student-id string is exactly equal (case-sensitively) to the
submitted identifier; on a match it stores that user's identifier and role
(default `"Staff"`) in the session and succeeds, and when no record is
exactly equal — even one differing only in letter case — the session is
unchanged and the login fails. -/
theorem C2_login_exact_match (users : List User) (sid : String)
    (s : SessionState) :
    (∀ u, users.find? (fun u => u.student_id == sid) = some u →
       login users sid s =
         ({ user_id := some u.id, user_role := some (u.role.getD "Staff") },
          true)) ∧
    (users.find? (fun u => u.student_id == sid) = none →
       login users sid s = (s, false)) ∧
    ((∀ u ∈ users, u.student_id ≠ sid) → login users sid s = (s, false)) := by
  refine ⟨fun u hu => ?_, fun hn => ?_, fun hall => ?_⟩
  · rw [login, hu]
  · rw [login, hn]
  · rw [login, List.find?_eq_none.mpr (fun u hu => by simp [hall u hu])]

/-- C2 witness: an exact match logs the sample user in with the default
role. -/
theorem C2_witness :
    ([userA].find? (fun u => u.student_id == "abc123") = some userA) ∧
    login [userA] "abc123" emptySession =
      ({ user_id := some 7, user_role := some "Staff" }, true) :=
  ⟨by decide,
   (C2_login_exact_match [userA] "abc123" emptySession).1 userA (by decide)⟩

/-- C5 counterexample: deleting identifier 1 from a collection whose only
record has identifier 2 removes nothing — the record count does not drop
by one — refuting "for every item collection and every identifier, the
delete operation removes exactly one record". -/
theorem C5_counterexample :
    delete_item [itemB] 1 = [itemB] ∧
    ¬ (delete_item [itemB] 1).length + 1 = ([itemB] : List Item).length := by
  refine ⟨by decide, by decide⟩

/-- C5 (amended): delete removes exactly the records whose identifier
matches — every surviving record is an original one with its identifier
different from the given one, every original record with a different
identifier survives, the survivors keep their order and all field values —
and when the identifier matches exactly one record the count drops by
exactly one. -/
theorem C5_delete_exact (items : List Item) (item_id : Nat) :
    (delete_item items item_id).Sublist items ∧
    (∀ i : Item,
       i ∈ delete_item items item_id ↔ i ∈ items ∧ i.id ≠ item_id) ∧
    (items.countP (fun i => i.id == item_id) = 1 →
       (delete_item items item_id).length + 1 = items.length) := by
  refine ⟨List.filter_sublist items, fun i => ?_, fun hone => ?_⟩
  · rw [delete_item, List.mem_filter]
    simp
  · rw [delete_item]
    have hsplit := List.length_eq_countP_add_countP
      (fun i : Item => i.id == item_id) items
    have hfilter : (items.filter (fun i => i.id != item_id)).length =
        items.countP (fun i => !(i.id == item_id)) := by
      rw [← List.countP_eq_length_filter]
      rfl
    have hneg : items.countP (fun i : Item => !(i.id == item_id)) =
        items.countP (fun i : Item => decide ¬(i.id == item_id) = true) := by
      apply List.countP_congr
      intro i _
      simp
    omega

/-- C5 witness: in a two-record store where identifier 1 occurs once,
deleting 1 keeps the other record unchanged and drops the count by one. -/
theorem C5_witness :
    (([itemA, itemB] : List Item).countP (fun i => i.id == 1) = 1) ∧
    (delete_item [itemA, itemB] 1).length + 1 =
      ([itemA, itemB] : List Item).length ∧
    (itemB ∈ delete_item [itemA, itemB] 1 ↔
      itemB ∈ ([itemA, itemB] : List Item) ∧ itemB.id ≠ 1) :=
  ⟨by decide,
   (C5_delete_exact [itemA, itemB] 1).2.2 (by decide),
   (C5_delete_exact [itemA, itemB] 1).2.1 itemB⟩

/-- C8 (confirmed): adding an item to a collection of size n appends one
record, so the result has size n + 1, the first n records are exactly the
old collection, and the appended record has identifier n + 1 and status
`"Unclaimed"`. -/
theorem C8_add_item (sanitize : String → String) (items : List Item)
    (nameF descriptionF categoryF now : String) (upload : Option String) :
    (add_item sanitize items nameF descriptionF categoryF now upload).length =
      items.length + 1 ∧
    (add_item sanitize items nameF descriptionF categoryF now upload).take
      items.length = items ∧
    ∃ it : Item,
      (add_item sanitize items nameF descriptionF categoryF now upload).getLast?
        = some it ∧
      it.id = items.length + 1 ∧ it.status = "Unclaimed" := by
  refine ⟨by simp [add_item], ?_, ?_⟩
  · simp only [add_item]
    exact List.take_left items _
  · simp only [add_item]
    exact ⟨_, List.getLast?_concat items, rfl, rfl⟩

/-- C9 (confirmed): a filename rejected by `allowed_file` (e.g. a `.txt`)
is silently ignored — `add_item` stores an empty image field in the new
record, and `update_item` still succeeds (no error) while leaving the
found record's image field exactly as it was. -/
theorem C9_disallowed_upload_ignored (sanitize : String → String)
    (f : String) (hf : allowed_file f = false) (items : List Item)
    (nameF descriptionF categoryF now : String) (item_id : Nat)
    (n2 d2 c2 : String) (orig : Item)
    (hfind : items.find? (fun i => i.id == item_id) = some orig) :
    ((add_item sanitize items nameF descriptionF categoryF now
        (some f)).getLast?.map Item.image = some "") ∧
    (∃ out, update_item sanitize items item_id n2 d2 c2 (some f) = some out ∧
       out.find? (fun i => i.id == item_id) =
         some (applyUpdate sanitize n2 d2 c2 (some f) orig) ∧
       (applyUpdate sanitize n2 d2 c2 (some f) orig).image = orig.image) := by
  constructor
  · simp only [add_item]
    rw [List.getLast?_concat]
    simp [hf]
  · have hp : (orig.id == item_id) = true := by
      simpa using List.find?_some hfind
    have hany : items.any (fun i => i.id == item_id) = true :=
      List.any_eq_true.mpr ⟨orig, List.mem_of_find?_eq_some hfind, hp⟩
    refine ⟨updateFirst (fun i => i.id == item_id)
        (applyUpdate sanitize n2 d2 c2 (some f)) items,
      by rw [update_item]; simp [hany], ?_, ?_⟩
    · rw [find_updateFirst]
      · rw [hfind]
        rfl
      · intro i hi
        have : (applyUpdate sanitize n2 d2 c2 (some f) i).id = i.id :=
          applyUpdate_id sanitize n2 d2 c2 (some f) i
        simpa [this] using hi
    · exact applyUpdate_image_of_not_allowed sanitize n2 d2 c2 f hf orig

/-- C9 witness: uploading `notes.txt` on add stores an empty image, and on
update of the sample item leaves its image unchanged. -/
theorem C9_witness :
    allowed_file "notes.txt" = false ∧
    ([itemA].find? (fun i => i.id == 1) = some itemA) ∧
    (((add_item (fun s => s) [itemA] "n" "d" "c" "t"
        (some "notes.txt")).getLast?.map Item.image = some "") ∧
     (∃ out, update_item (fun s => s) [itemA] 1 "n" "d" "c"
          (some "notes.txt") = some out ∧
        out.find? (fun i => i.id == 1) =
          some (applyUpdate (fun s => s) "n" "d" "c" (some "notes.txt") itemA) ∧
        (applyUpdate (fun s => s) "n" "d" "c" (some "notes.txt") itemA).image =
          itemA.image)) :=
  ⟨by decide, by decide,
   C9_disallowed_upload_ignored (fun s => s) "notes.txt" (by decide) [itemA]
     "n" "d" "c" "t" 1 "n" "d" "c" itemA (by decide)⟩

/-- C6 (confirmed): when the collection's first record with the given
identifier is `"Unclaimed"`, submitting a claim succeeds and the record
with that identifier in the result is the claimed version of the original:
status `"Claimed"`, assisting staff, claimer name, college, course, and
year/section copied from the form, `claimed_at` stamped, and the
identifier unchanged. -/
theorem C6_claim_sets_fields (sanitize : String → String)
    (items : List Item) (item_id : Nat) (form : ClaimForm)
    (claimedAt : String) (proofFile : Option String) (stamp nowIso : String)
    (orig : Item)
    (hfind : items.find? (fun i => i.id == item_id) = some orig)
    (hstatus : orig.status = "Unclaimed") :
    ∃ out u,
      claim_item sanitize items item_id form claimedAt proofFile stamp nowIso
        = some out ∧
      out.find? (fun i => i.id == item_id) = some u ∧
      u.status = "Claimed" ∧
      u.assisting_staff = form.staff ∧
      u.claimer_name = some form.claimer_name ∧
      u.college = some form.college ∧
      u.course = some form.course ∧
      u.year_section = some form.year_section ∧
      u.claimed_at = some claimedAt ∧
      u.id = orig.id := by
  have hp : (orig.id == item_id) = true := by
    simpa using List.find?_some hfind
  have hany : items.any (fun i => i.id == item_id) = true :=
    List.any_eq_true.mpr ⟨orig, List.mem_of_find?_eq_some hfind, hp⟩
  refine ⟨updateFirst (fun i => i.id == item_id)
      (applyClaim sanitize form claimedAt proofFile stamp nowIso) items,
    applyClaim sanitize form claimedAt proofFile stamp nowIso orig,
    by rw [claim_item]; simp [hany], ?_, ?_, ?_, ?_, ?_, ?_, ?_, ?_, ?_⟩
  · rw [find_updateFirst]
    · rw [hfind]
      rfl
    · intro i hi
      have hid := applyClaim_id sanitize form claimedAt proofFile stamp nowIso i
      simpa [hid] using hi
  · exact applyClaim_status sanitize form claimedAt proofFile stamp nowIso orig
  · exact (applyClaim_fields sanitize form claimedAt proofFile stamp nowIso orig).1
  · exact (applyClaim_fields sanitize form claimedAt proofFile stamp nowIso orig).2.1
  · exact (applyClaim_fields sanitize form claimedAt proofFile stamp nowIso orig).2.2.1
  · exact (applyClaim_fields sanitize form claimedAt proofFile stamp nowIso orig).2.2.2.1
  · exact (applyClaim_fields sanitize form claimedAt proofFile stamp nowIso orig).2.2.2.2.1
  · exact (applyClaim_fields sanitize form claimedAt proofFile stamp nowIso orig).2.2.2.2.2
  · exact applyClaim_id sanitize form claimedAt proofFile stamp nowIso orig

/-- C6 witness: claiming the sample unclaimed item with the sample form. -/
theorem C6_witness :
    ([itemA].find? (fun i => i.id == 1) = some itemA) ∧
    itemA.status = "Unclaimed" ∧
    ∃ out u,
      claim_item (fun s => s) [itemA] 1 formA "May 01, 2024 10:00 AM" none
        "20240501100000" "2024-05-01T10:00:00" = some out ∧
      out.find? (fun i => i.id == 1) = some u ∧
      u.status = "Claimed" ∧
      u.assisting_staff = formA.staff ∧
      u.claimer_name = some formA.claimer_name ∧
      u.college = some formA.college ∧
      u.course = some formA.course ∧
      u.year_section = some formA.year_section ∧
      u.claimed_at = some "May 01, 2024 10:00 AM" ∧
      u.id = itemA.id :=
  ⟨by decide, rfl,
   C6_claim_sets_fields (fun s => s) [itemA] 1 formA "May 01, 2024 10:00 AM"
     none "20240501100000" "2024-05-01T10:00:00" itemA (by decide) rfl⟩

/-- Lowercasing preserves (non-)emptiness. -/
theorem pyLower_eq_empty_iff (s : String) : pyLower s = "" ↔ s = "" := by
  constructor
  · intro h
    cases s with
    | mk data =>
      have hd : data.map Char.toLower = List.nil := congrArg String.data h
      have hdata : data = [] := List.map_eq_nil_iff.mp hd
      rw [hdata]
  · intro h
    rw [h]
    rfl

/-- C7 (confirmed): with no search query, filtering by a non-empty
category keeps exactly the items whose stored category (missing read as
`""`), case-normalized, equals the case-normalized filter; with no
category filter, a non-empty search query keeps exactly the items whose
lowercased name or lowercased category contains the lowercased query as a
contiguous substring. -/
theorem C7_filtering (items : List Item) (i : Item) (q cat : String) :
    (cat ≠ "" →
      (i ∈ homeFilter "" cat items ↔
        i ∈ items ∧ pyLower (i.category.getD "") = pyLower cat)) ∧
    (q ≠ "" →
      (i ∈ homeFilter q "" items ↔
        i ∈ items ∧
          ((∃ l r, (pyLower i.name).data = l ++ (pyLower q).data ++ r) ∨
           (∃ l r, (pyLower (i.category.getD "")).data =
              l ++ (pyLower q).data ++ r)))) := by
  constructor
  · intro hcat
    simp only [homeFilter]
    rw [if_neg (by decide : ¬ (pyLower "" ≠ ""))]
    rw [if_pos hcat]
    simp only [List.mem_filter, beq_iff_eq]
  · intro hq
    have hq' : pyLower q ≠ "" := fun h => hq ((pyLower_eq_empty_iff q).mp h)
    simp only [homeFilter]
    rw [if_pos hq']
    rw [if_neg (by decide : ¬ (("" : String) ≠ ""))]
    simp only [List.mem_filter, Bool.or_eq_true, listContains_iff]

/-- C7 witness: in the sample store, the category filter `"electronics"`
keeps the phone, and so does the search query `"PHO"`. -/
theorem C7_witness :
    ("electronics" ≠ "" ∧
      (itemA ∈ homeFilter "" "electronics" [itemA, itemB] ↔
        itemA ∈ ([itemA, itemB] : List Item) ∧
          pyLower (itemA.category.getD "") = pyLower "electronics")) ∧
    ("PHO" ≠ "" ∧
      (itemA ∈ homeFilter "PHO" "" [itemA, itemB] ↔
        itemA ∈ ([itemA, itemB] : List Item) ∧
          ((∃ l r, (pyLower itemA.name).data = l ++ (pyLower "PHO").data ++ r) ∨
           (∃ l r, (pyLower (itemA.category.getD "")).data =
              l ++ (pyLower "PHO").data ++ r)))) :=
  ⟨⟨by decide, (C7_filtering [itemA, itemB] itemA "PHO" "electronics").1
      (by decide)⟩,
   ⟨by decide, (C7_filtering [itemA, itemB] itemA "PHO" "electronics").2
      (by decide)⟩⟩

/-- C4 (confirmed): the derived label agrees with the spec's banded
description of `now - date_found` — days when at least one day, else
hours when at least one hour, else minutes when at least one minute, else
`"Just now"` — and in particular 25 hours (90000 s) yields `"1 day ago"`,
90 minutes (5400 s) yields `"1 hour ago"`, and 30 seconds yields
`"Just now"`. -/
theorem C4_time_stored_label :
    (∀ delta : Nat, timeStored delta = timeStoredSpec delta) ∧
    timeStored 90000 = "1 day ago" ∧
    timeStored 5400 = "1 hour ago" ∧
    timeStored 30 = "Just now" := by
  refine ⟨fun delta => ?_, by decide, by decide, by decide⟩
  simp only [timeStored, timeStoredSpec]
  by_cases h1 : 86400 ≤ delta
  · have hd : 0 < delta / 86400 := Nat.div_pos h1 (by norm_num)
    rw [if_pos hd, if_pos h1]
  · push_neg at h1
    have hd : delta / 86400 = 0 := Nat.div_eq_of_lt h1
    have hm : delta % 86400 = delta := Nat.mod_eq_of_lt h1
    rw [hd, hm, if_neg (by omega : ¬ (0 : Nat) > 0),
      if_neg (by omega : ¬ 86400 ≤ delta)]
    by_cases h2 : 3600 ≤ delta
    · have hh : 0 < delta / 3600 := Nat.div_pos h2 (by norm_num)
      rw [if_pos hh, if_pos h2]
    · push_neg at h2
      have hh : delta / 3600 = 0 := Nat.div_eq_of_lt h2
      have hm2 : delta % 3600 = delta := Nat.mod_eq_of_lt h2
      rw [hh, hm2, if_neg (by omega : ¬ (0 : Nat) > 0),
        if_neg (by omega : ¬ 3600 ≤ delta)]
      by_cases h3 : 60 ≤ delta
      · have hmin : 0 < delta / 60 := Nat.div_pos h3 (by norm_num)
        rw [if_pos hmin, if_pos h3]
      · push_neg at h3
        have hmin : delta / 60 = 0 := Nat.div_eq_of_lt h3
        rw [hmin, if_neg (by omega : ¬ (0 : Nat) > 0),
          if_neg (by omega : ¬ 60 ≤ delta)]

/-- Every single request satisfies `stepRel`: add appends one fresh
`"Unclaimed"` record, update and claim rewrite in place with each status
kept or set to `"Claimed"`, delete keeps a sublist of untouched records. -/
theorem applyOp_stepRel (sanitize : String → String) (items : List Item)
    (op : Op) : stepRel items (applyOp sanitize items op) := by
  cases op with
  | add n d c now up =>
    exact Or.inl ⟨_, rfl, rfl⟩
  | update j n d c up =>
    refine Or.inr (Or.inl ?_)
    simp only [applyOp, update_item]
    by_cases hj : (items.any (fun i => i.id == j)) = true
    · rw [if_pos hj, Option.getD_some]
      exact forall2_updateFirst statusEvolves _ _
        (fun i => Or.inl rfl)
        (fun i => Or.inl (applyUpdate_status sanitize n d c up i)) items
    · rw [if_neg hj]
      exact List.forall₂_same.mpr fun i _ => Or.inl rfl
  | claim j f ca pf st ni =>
    refine Or.inr (Or.inl ?_)
    simp only [applyOp, claim_item]
    by_cases hj : (items.any (fun i => i.id == j)) = true
    · rw [if_pos hj, Option.getD_some]
      exact forall2_updateFirst statusEvolves _ _
        (fun i => Or.inl rfl)
        (fun i => Or.inr (applyClaim_status sanitize f ca pf st ni i)) items
    · rw [if_neg hj]
      exact List.forall₂_same.mpr fun i _ => Or.inl rfl
  | delete j =>
    exact Or.inr (Or.inr (List.filter_sublist items))

/-- C3 (confirmed): every run of requests relates the start store to the
final store by the reflexive-transitive closure of `stepRel`, whose three
cases are exactly "add appends a fresh Unclaimed record", "update/claim
rewrite records in place, each status preserved or set to Claimed", and
"delete drops records unchanged" — so no request ever turns an existing
record's `"Claimed"` back into `"Unclaimed"`.  Moreover any `stepRel` step
that keeps the record count (no record deleted or appended) keeps each
position-`k` record's `"Claimed"` status. -/
theorem C3_claimed_never_reverts (sanitize : String → String)
    (items : List Item) (ops : List Op) :
    Relation.ReflTransGen stepRel items (runOps sanitize items ops) ∧
    (∀ xs ys : List Item, stepRel xs ys →
      ∀ (k : Nat) (hx : k < xs.length) (hy : k < ys.length),
        ys.length = xs.length →
        (xs.get ⟨k, hx⟩).status = "Claimed" →
        (ys.get ⟨k, hy⟩).status = "Claimed") := by
  constructor
  · induction ops generalizing items with
    | nil => exact Relation.ReflTransGen.refl
    | cons op ops ih =>
      exact Relation.ReflTransGen.head
        (applyOp_stepRel sanitize items op) (ih _)
  · intro xs ys hstep k hx hy hlen hcl
    simp only [stepRel] at hstep
    rcases hstep with ⟨new, hnew, rfl⟩ | hf | hsub
    · rw [List.length_append] at hlen
      simp at hlen
    · have hget := (List.forall₂_iff_get.mp hf).2 k hx hy
      simp only [statusEvolves] at hget
      rcases hget with hget | hget
      · rw [hget]
        exact hcl
      · exact hget
    · have heq : ys = xs := hsub.eq_of_length hlen
      subst heq
      exact hcl

/-- C3 witness: a one-step `stepRel` instance at a concrete claimed
record, fed through the theorem's second conjunct. -/
theorem C3_witness :
    stepRel ([claimedItem] : List Item) [claimedItem] ∧
    (([claimedItem] : List Item).get ⟨0, Nat.one_pos⟩).status = "Claimed" :=
  ⟨Or.inr (Or.inr (List.Sublist.refl _)),
   (C3_claimed_never_reverts (fun s => s) [] []).2 [claimedItem] [claimedItem]
     (Or.inr (Or.inr (List.Sublist.refl _))) 0 Nat.one_pos Nat.one_pos rfl rfl⟩

/-- Each request preserves the invariant that every record's status is
`"Unclaimed"` or `"Claimed"`. -/
theorem statusInv_applyOp (sanitize : String → String) (items : List Item)
    (op : Op)
    (h : ∀ i ∈ items, i.status = "Unclaimed" ∨ i.status = "Claimed") :
    ∀ i ∈ applyOp sanitize items op,
      i.status = "Unclaimed" ∨ i.status = "Claimed" := by
  cases op with
  | add n d c now up =>
    intro i hi
    simp only [applyOp, add_item, List.mem_append, List.mem_singleton] at hi
    rcases hi with hi | rfl
    · exact h i hi
    · exact Or.inl rfl
  | update j n d c up =>
    intro i hi
    simp only [applyOp, update_item] at hi
    by_cases hj : (items.any (fun i => i.id == j)) = true
    · rw [if_pos hj, Option.getD_some] at hi
      rcases mem_updateFirst hi with hi | ⟨a, ha, rfl⟩
      · exact h i hi
      · rw [applyUpdate_status]
        exact h a ha
    · rw [if_neg hj, Option.getD_none] at hi
      exact h i hi
  | claim j f ca pf st ni =>
    intro i hi
    simp only [applyOp, claim_item] at hi
    by_cases hj : (items.any (fun i => i.id == j)) = true
    · rw [if_pos hj, Option.getD_some] at hi
      rcases mem_updateFirst hi with hi | ⟨a, ha, rfl⟩
      · exact h i hi
      · exact Or.inr (applyClaim_status sanitize f ca pf st ni a)
    · rw [if_neg hj, Option.getD_none] at hi
      exact h i hi
  | delete j =>
    intro i hi
    simp only [applyOp, delete_item, List.mem_filter] at hi
    exact h i hi.1

/-- When every status is `"Unclaimed"` or `"Claimed"`, the claimed and
unclaimed counts partition the collection. -/
theorem count_partition (l : List Item)
    (h : ∀ i ∈ l, i.status = "Unclaimed" ∨ i.status = "Claimed") :
    (l.filter (fun i => i.status == "Claimed")).length +
      (l.filter (fun i => i.status == "Unclaimed")).length = l.length := by
  induction l with
  | nil => rfl
  | cons a rest ih =>
    have hrest := ih fun i hi => h i (by simp [hi])
    rcases h a (by simp) with ha | ha
    · rw [List.filter_cons, List.filter_cons, ha,
        if_neg (by decide :
          ¬ ((("Unclaimed" : String) == "Claimed") = true)),
        if_pos (by decide : (("Unclaimed" : String) == "Unclaimed") = true)]
      simp only [List.length_cons]
      omega
    · rw [List.filter_cons, List.filter_cons, ha,
        if_pos (by decide : (("Claimed" : String) == "Claimed") = true),
        if_neg (by decide :
          ¬ ((("Claimed" : String) == "Unclaimed") = true))]
      simp only [List.length_cons]
      omega

/-- C10 (confirmed): in every store reachable from the empty store
through the request handlers, each record's status is `"Unclaimed"` or
`"Claimed"`, and the admin dashboard's claimed count plus unclaimed count
equals its total count. -/
theorem C10_status_partition (sanitize : String → String) (ops : List Op) :
    (∀ i ∈ runOps sanitize [] ops,
       i.status = "Unclaimed" ∨ i.status = "Claimed") ∧
    (adminStats (runOps sanitize [] ops)).2.1 +
      (adminStats (runOps sanitize [] ops)).2.2 =
      (adminStats (runOps sanitize [] ops)).1 := by
  have hmain : ∀ (rest : List Op) (items : List Item),
      (∀ i ∈ items, i.status = "Unclaimed" ∨ i.status = "Claimed") →
      ∀ i ∈ runOps sanitize items rest,
        i.status = "Unclaimed" ∨ i.status = "Claimed" := by
    intro rest
    induction rest with
    | nil =>
      intro items h i hi
      rw [runOps] at hi
      exact h i hi
    | cons op ops ih =>
      intro items h i hi
      rw [runOps] at hi
      exact ih _ (statusInv_applyOp sanitize items op h) i hi
  have hfin := hmain ops [] (by simp)
  exact ⟨hfin, count_partition _ hfin⟩
